import Mathlib

/-!
Verification of the MemForge memory allocator (C sources) against its
natural-language specification, via a shallow embedding in Lean 4.

The embedding covers:
* the compile-time constants of `include/memforge/memforge_config.h`;
* the global state and lifecycle functions of `src/core/init.c`
  (`memforge_init`, `memforge_init_default_config`, `memforge_init_arenas`);
* the configuration-setup translation unit (`default_memforge_config`,
  `custom_environment_tuning`, `setup_config`), embedded in
  namespace `ConfigSetup`;
* the lazy-initialization prefix of `memforge_malloc` and the null-check
  prefix of `memforge_free`, which are the only implemented parts of the
  public allocation entry points.

The allocation engine itself (free-list search, the hybrid heap-vs-mmap
backing decision, calloc's overflow check and zero-fill) is declared and
documented in the repository but its body is not implemented in the
sources; those parts are modelled from the specification and are marked
`Modelled from the spec:` in their doc comments.

External effects (sysconf, mmap success, arena_create success) are
supplied by an explicit oracle so the C control flow can be replayed
deterministically.
-/

-- ============================================================================
-- Constants from include/memforge/memforge_config.h
-- ============================================================================

/-- `#define MEMFORGE_ALIGNMENT 8` -/
def MEMFORGE_ALIGNMENT : Nat := 8

/-- Width of `size_t` on the (64-bit Linux) target; `SIZE_MAX = 2^64 - 1`. -/
def SIZE_MAX : Nat := 2 ^ 64 - 1

/-- `#define MEMFORGE_ALIGN(size) (((size) + (MEMFORGE_ALIGNMENT - 1)) & ~(MEMFORGE_ALIGNMENT - 1))`
on `size_t`: the addition wraps modulo `2^64` and `~7` is the 64-bit mask
`2^64 - 8`. -/
def MEMFORGE_ALIGN (size : Nat) : Nat :=
  ((size + (MEMFORGE_ALIGNMENT - 1)) % 2 ^ 64) &&& (2 ^ 64 - MEMFORGE_ALIGNMENT)

/-- `#define MEMFORGE_MIN_ALLOC_SIZE 16` -/
def MEMFORGE_MIN_ALLOC_SIZE : Nat := 16

/-- `#define MEMFORGE_DEFAULT_MMAP_THRESHOLD (128 * 1024)` -/
def MEMFORGE_DEFAULT_MMAP_THRESHOLD : Nat := 128 * 1024

/-- `#define MEMFORGE_SIZE_CLASS_COUNT 16` -/
def MEMFORGE_SIZE_CLASS_COUNT : Nat := 16

/-- `#define MEMFORGE_INITIAL_HEAP_SIZE (128 * 1024)` -/
def MEMFORGE_INITIAL_HEAP_SIZE : Nat := 128 * 1024

/-- `#define MEMFORGE_DEFAULT_ARENA_COUNT 4` -/
def MEMFORGE_DEFAULT_ARENA_COUNT : Nat := 4

/-- `#define MEMFORGE_THREAD_SAFE 1` (a truth value in this build). -/
def MEMFORGE_THREAD_SAFE : Bool := true

/-- `DEBUG_LOGGING` is `0` because `MEMFORGE_DEBUG` is not defined. -/
def DEBUG_LOGGING : Bool := false

/-- `ENOMEM` errno value on Linux. -/
def ENOMEM : Nat := 12

-- ============================================================================
-- Public types from include/memforge/memforge.h
-- ============================================================================

/-- `typedef enum allocation_strategies { ... } memforge_strategy_t;` -/
inductive memforge_strategy_t where
  | MEMFORGE_STRATEGY_FIRST_FIT
  | MEMFORGE_STRATEGY_BEST_FIT
  | MEMFORGE_STRATEGY_HYBRID
deriving DecidableEq, Repr

/-- `typedef struct config { ... } memforge_config_t;` -/
structure memforge_config_t where
  page_size : Nat
  mmap_threshold : Nat
  strategy : memforge_strategy_t
  thread_safe : Bool
  debug_enabled : Bool
  arena_count : Nat
deriving DecidableEq, Repr

/-- `typedef struct stats { ... } memforge_stats_t;` -/
structure memforge_stats_t where
  total_allocated : Nat
  total_freed : Nat
  current_usage : Nat
  peak_usage : Nat
  allocation_count : Nat
  free_count : Nat
  mmap_count : Nat
  heap_expansions : Nat
deriving DecidableEq, Repr

-- ============================================================================
-- Allocation model types.
-- An arena handle is identified by the index of the `arena_create` call
-- that produced it; a pointer is a natural number, with 0 playing NULL.
-- ============================================================================

/-- Which backing store served an allocation: a heap segment of the arena,
or a standalone direct mapping ("Mapped Allocation" in the spec). -/
inductive BackingSource where
  | heap
  | direct_mapping
deriving DecidableEq, Repr

/-- One live allocation: its base address, its byte contents (whose length
is the aligned block size), and which backing store it came from. -/
structure AllocRecord where
  base : Nat
  bytes : List Nat
  source : BackingSource
deriving DecidableEq, Repr

-- ============================================================================
-- Global state (src/core/init.c globals plus the allocation-model state)
-- ============================================================================

/-- Initial value of the global `memforge_size_classes` array in
`src/core/init.c`. -/
def memforge_size_classes : List Nat :=
  [16, 32, 64, 128, 256, 512, 1024, 2048,
   4096, 8192, 16384, 32768, 65536, 131072, 262144, 524288]

/-- The global mutable state of the allocator: the file-scope globals of
`src/core/init.c` (`memforge_config`, `memforge_stats`,
`memforge_main_arena`, `memforge_arenas`, `memforge_initialized`,
`memforge_size_classes`), plus the free-list / live-allocation model used
by the spec-modelled allocation engine.  An arena slot of `none` is a NULL
entry; `memforge_arenas = none` is a NULL array pointer. -/
structure MemforgeState where
  memforge_config : memforge_config_t
  memforge_stats : memforge_stats_t
  memforge_main_arena : Option Nat
  memforge_arenas : Option (List (Option Nat))
  memforge_initialized : Bool
  memforge_size_classes : List Nat
  free_blocks : List (Nat × Nat)
  live : List AllocRecord
  next_ptr : Nat
deriving DecidableEq, Repr

/-- Oracle for the external effects used by initialization:
`sysconf(_SC_PAGESIZE)`, the success of `system_alloc_mmap` for the arena
array, and the success of the k-th `arena_create` call. -/
structure SysOracle where
  sysconf_page_size : Nat
  arena_array_ok : Bool
  arena_ok : Nat → Bool

/-- The C globals before any call: `memforge_config = {0}`,
`memforge_stats = {0}`, both arena pointers NULL,
`memforge_initialized = false`, and the statically initialized size-class
table.  The model's fresh-pointer counter starts at one page so that no
pointer is ever NULL. -/
def initialState : MemforgeState :=
  { memforge_config :=
      { page_size := 0, mmap_threshold := 0,
        strategy := .MEMFORGE_STRATEGY_FIRST_FIT,
        thread_safe := false, debug_enabled := false, arena_count := 0 }
    memforge_stats :=
      { total_allocated := 0, total_freed := 0, current_usage := 0,
        peak_usage := 0, allocation_count := 0, free_count := 0,
        mmap_count := 0, heap_expansions := 0 }
    memforge_main_arena := none
    memforge_arenas := none
    memforge_initialized := false
    memforge_size_classes := memforge_size_classes
    free_blocks := []
    live := []
    next_ptr := 4096 }

-- ============================================================================
-- src/core/init.c
-- ============================================================================

/-- `memforge_init_default_config` from `src/core/init.c`: detects the page
size via `sysconf(_SC_PAGESIZE)` (falling back to 4096 when detection
returns 0) and writes the compile-time defaults into `memforge_config`.
Always returns 0. -/
def memforge_init_default_config (sys : SysOracle) (s : MemforgeState) :
    Int × MemforgeState :=
  let ps := if sys.sysconf_page_size = 0 then 4096 else sys.sysconf_page_size
  (0, { s with memforge_config :=
    { page_size := ps
      mmap_threshold := MEMFORGE_DEFAULT_MMAP_THRESHOLD
      strategy := .MEMFORGE_STRATEGY_HYBRID
      thread_safe := MEMFORGE_THREAD_SAFE
      debug_enabled := DEBUG_LOGGING
      arena_count := MEMFORGE_DEFAULT_ARENA_COUNT } })

/-- The `for (i = 1; i < arena_count; i++)` loop body of
`memforge_init_arenas`, iterated over the index list: each successful
`arena_create` fills slot `i`; the first failure stores the loop index as
the new `arena_count` ("continue with fewer arenas") and breaks. -/
def init_arenas_loop (ok : Nat → Bool) (count : Nat) :
    List (Option Nat) → List Nat → List (Option Nat) × Nat
  | slots, [] => (slots, count)
  | slots, i :: rest =>
    if ok i then init_arenas_loop ok count (slots.set i (some i)) rest
    else (slots, i)

/-- `memforge_init_arenas` from `src/core/init.c`: allocates the arena
array with `system_alloc_mmap` (NULL is assigned to `memforge_arenas` on
failure), creates the main arena (on failure the array is freed but the
variable `memforge_arenas` keeps its now-stale value, and
`memforge_main_arena` holds the NULL result), publishes the main arena in
slot 0, and, in thread-safe mode, creates the remaining arenas
best-effort. -/
def memforge_init_arenas (sys : SysOracle) (s : MemforgeState) :
    Int × MemforgeState :=
  if sys.arena_array_ok = false then
    (-1, { s with memforge_arenas := none })
  else
    let slots0 : List (Option Nat) :=
      List.replicate s.memforge_config.arena_count none
    if sys.arena_ok 0 = false then
      (-1, { s with memforge_arenas := some slots0, memforge_main_arena := none })
    else
      let slots1 := slots0.set 0 (some 0)
      let s1 := { s with memforge_arenas := some slots1,
                         memforge_main_arena := some 0 }
      if s1.memforge_config.thread_safe then
        let r := init_arenas_loop sys.arena_ok s1.memforge_config.arena_count
          slots1 (List.range' 1 (s1.memforge_config.arena_count - 1))
        (0, { s1 with
          memforge_arenas := some r.1
          memforge_config := { s1.memforge_config with arena_count := r.2 } })
      else
        (0, s1)

/-- `memforge_init` from `src/core/init.c`: no-op returning 0 when already
initialized; otherwise sets up the default configuration, overrides it
wholesale with the caller's struct when one is provided, initializes the
arenas (propagating their failure as -1), alignment-rounds the size-class
table, and finally publishes `memforge_initialized = true`. -/
def memforge_init (sys : SysOracle) (config : Option memforge_config_t)
    (s : MemforgeState) : Int × MemforgeState :=
  if s.memforge_initialized then (0, s)
  else
    let r1 := memforge_init_default_config sys s
    if r1.1 ≠ 0 then (-1, r1.2)
    else
      let s2 := match config with
        | some c => { r1.2 with memforge_config := c }
        | none => r1.2
      let r2 := memforge_init_arenas sys s2
      if r2.1 ≠ 0 then (-1, r2.2)
      else
        (0, { r2.2 with
          memforge_size_classes := r2.2.memforge_size_classes.map MEMFORGE_ALIGN
          memforge_initialized := true })

/-- `memforge_cleanup` from `src/core/init.c`: destroys all arenas, frees
the arena array, resets the global pointers and the initialized flag.
Arena destruction itself is external; only the global-variable effects are
embedded. -/
def memforge_cleanup (s : MemforgeState) : MemforgeState :=
  if s.memforge_initialized = false then s
  else
    { s with memforge_arenas := none
             memforge_main_arena := none
             memforge_initialized := false }

-- ============================================================================
-- The allocation engine.
-- The repository declares and documents the engine (free lists, the
-- hybrid heap-vs-mmap decision, calloc) but its bodies are not written:
-- `memforge_malloc` in the sources ends right after its lazy-init and
-- size-0 prologue, and `memforge_calloc` has an empty body.  The engine
-- below is therefore modelled from the specification.
-- ============================================================================

/-- Result of an allocation entry point: the returned pointer (`none` is
NULL), the errno value when one is set, and the post state. -/
structure MallocResult where
  ptr : Option Nat
  errno_val : Option Nat
  state : MemforgeState
deriving DecidableEq, Repr

/-- Statistics bookkeeping shared by every successful allocation: bytes
and counters go up, peak usage tracks current usage. -/
def bump_alloc_stats (aligned : Nat) (st : memforge_stats_t) : memforge_stats_t :=
  { st with
    total_allocated := st.total_allocated + aligned
    current_usage := st.current_usage + aligned
    peak_usage := max st.peak_usage (st.current_usage + aligned)
    allocation_count := st.allocation_count + 1 }

/-- Modelled from the spec: the Backing Store Provider decision rule of
§4.5, invoked on every allocation miss.  If the aligned request size is
strictly below the configured mmap threshold the request is served from
heap-segment space (a heap expansion; the mmap counter is untouched);
at or above the threshold it is served as a standalone direct mapping
(the mmap counter is incremented) that never touches the free lists.
Segment geometry (page rounding, slack) and provider OOM are not part of
any claim and are not modelled; fresh blocks carry unspecified contents,
written here as the junk byte 170. -/
def serve_miss (size : Nat) (s : MemforgeState) : MallocResult :=
  let aligned := MEMFORGE_ALIGN size
  let p := s.next_ptr
  if aligned < s.memforge_config.mmap_threshold then
    { ptr := some p, errno_val := none,
      state := { s with
        next_ptr := p + aligned
        live := ⟨p, List.replicate aligned 170, .heap⟩ :: s.live
        memforge_stats := { bump_alloc_stats aligned s.memforge_stats with
          heap_expansions := s.memforge_stats.heap_expansions + 1 } } }
  else
    { ptr := some p, errno_val := none,
      state := { s with
        next_ptr := p + aligned
        live := ⟨p, List.replicate aligned 170, .direct_mapping⟩ :: s.live
        memforge_stats := { bump_alloc_stats aligned s.memforge_stats with
          mmap_count := s.memforge_stats.mmap_count + 1 } } }

/-- Modelled from the spec: the core of `allocate` (the part of
`memforge_malloc` after its implemented prologue, missing from the
sources).  The segregated free lists are modelled as one list of
(base, block size) pairs searched first-fit; a hit reuses the found block
whole (block splitting is outside every claim and is not modelled), a
miss falls through to the Backing Store Provider rule `serve_miss`. -/
def memforge_malloc_core (size : Nat) (s : MemforgeState) : MallocResult :=
  let aligned := MEMFORGE_ALIGN size
  match s.free_blocks.find? (fun b => decide (aligned ≤ b.2)) with
  | some b =>
    { ptr := some b.1, errno_val := none,
      state := { s with
        free_blocks := s.free_blocks.erase b
        live := ⟨b.1, List.replicate b.2 170, .heap⟩ :: s.live
        memforge_stats := bump_alloc_stats b.2 s.memforge_stats } }
  | none => serve_miss size s

/-- `memforge_malloc` from the allocator translation unit.  The prologue
is the implemented source code: lazy initialization with
`memforge_init(NULL)` when the allocator is uninitialized, returning NULL
with `errno = ENOMEM` when that fails, and the glibc-style promotion of a
size-0 request to 1 byte.  The serving core past the prologue is the
spec-modelled `memforge_malloc_core`. -/
def memforge_malloc (sys : SysOracle) (size : Nat) (s : MemforgeState) :
    MallocResult :=
  if s.memforge_initialized then
    memforge_malloc_core (if size = 0 then 1 else size) s
  else
    let r := memforge_init sys none s
    if r.1 ≠ 0 then { ptr := none, errno_val := some ENOMEM, state := r.2 }
    else memforge_malloc_core (if size = 0 then 1 else size) r.2

/-- Outcome of `memforge_free`: success, or the CorruptionDetected error
of spec §7 for a pointer that is not a live allocation. -/
inductive FreeStatus where
  | ok
  | corruption_detected
deriving DecidableEq, Repr

/-- `memforge_free`.  The NULL no-op check is the implemented source code;
the rest is modelled from the spec: a live pointer is removed from the
live set, heap-resident blocks return to the free list while direct
mappings are released to the OS as one unit, and a pointer that is not
live is a detected corruption error. -/
def memforge_free (p : Nat) (s : MemforgeState) : FreeStatus × MemforgeState :=
  if p = 0 then (.ok, s)
  else
    match s.live.find? (fun r => r.base == p) with
    | some r =>
      let st := { s.memforge_stats with
        free_count := s.memforge_stats.free_count + 1
        total_freed := s.memforge_stats.total_freed + r.bytes.length
        current_usage := s.memforge_stats.current_usage - r.bytes.length }
      let s1 := { s with
        live := s.live.eraseP (fun q => q.base == p)
        memforge_stats := st }
      match r.source with
      | .heap => (.ok, { s1 with free_blocks := (p, r.bytes.length) :: s1.free_blocks })
      | .direct_mapping => (.ok, s1)
    | none => (.corruption_detected, s)

/-- Zero-fill of the first `m` bytes of the allocation based at `p`
(the tail of the block, if any, keeps its previous contents). -/
def zero_fill (p m : Nat) (s : MemforgeState) : MemforgeState :=
  { s with live := s.live.map (fun r =>
      if r.base = p then
        { r with bytes := List.replicate m 0 ++ r.bytes.drop m }
      else r) }

/-- Modelled from the spec: `allocateZeroed(count, elementSize)` =
`allocate(count*elementSize)` with overflow-checked multiplication and
zero-fill (§6); the body of `memforge_calloc` is empty in the sources.
The request fails up front when `count * elementSize` overflows `size_t`;
otherwise it behaves as `memforge_malloc` of the product, and on success
the `count * elementSize` requested bytes are set to zero. -/
def memforge_calloc (sys : SysOracle) (n size : Nat) (s : MemforgeState) :
    MallocResult :=
  if SIZE_MAX < n * size then { ptr := none, errno_val := none, state := s }
  else
    let r := memforge_malloc sys (n * size) s
    match r.ptr with
    | some p => { r with state := zero_fill p (n * size) r.state }
    | none => r

-- ============================================================================
-- The configuration-setup translation unit (environment tuning).
-- This unit belongs to the earlier configuration layout: its config struct
-- carries {mmap_threshold, page_size, strategy, debug_level, thread_safe}
-- and its defaults come from MEMFORGE_MMAP_THRESHOLD (128*1024) and
-- MEMFORGE_PAGE_SIZE (4096) of that layout, with strategy encoded by the
-- enum value MEMFORGE_STRATEGY_HYBRID = 2.
-- ============================================================================

namespace ConfigSetup

/-- The configuration struct used by this translation unit (the earlier
`memforge_config_t` layout). -/
structure Config where
  mmap_threshold : Nat
  page_size : Nat
  strategy : Int
  debug_level : Int
  thread_safe : Bool
deriving DecidableEq, Repr

/-- The recognized `MEMFORGE_*` environment variables, each recorded as
the `atol`/`atoi` value of its string when the variable is set and `none`
when `getenv` returns NULL. -/
structure EnvVars where
  MEMFORGE_MMAP_THRESHOLD : Option Int
  MEMFORGE_PAGE_SIZE : Option Int
  MEMFORGE_STRATEGY_HYBRID : Option Int
  MEMFORGE_DEBUG : Option Int
deriving DecidableEq, Repr

/-- An environment in which none of the recognized variables is set. -/
def emptyEnv : EnvVars :=
  { MEMFORGE_MMAP_THRESHOLD := none, MEMFORGE_PAGE_SIZE := none,
    MEMFORGE_STRATEGY_HYBRID := none, MEMFORGE_DEBUG := none }

/-- `default_memforge_config`: glibc-style 128KB threshold, 4096-byte
pages, hybrid strategy (enum value 2), no debug, thread safety on. -/
def default_memforge_config : Config :=
  { mmap_threshold := 128 * 1024, page_size := 4096, strategy := 2,
    debug_level := 0, thread_safe := true }

/-- `custom_environment_tuning`: starts from the zero-initialized struct
`{0}` and overwrites a field only when its environment variable is set
(and, except for `MEMFORGE_DEBUG`, parses to a non-negative value). -/
def custom_environment_tuning (env : EnvVars) : Config :=
  let c0 : Config := { mmap_threshold := 0, page_size := 0, strategy := 0,
                       debug_level := 0, thread_safe := false }
  let c1 := match env.MEMFORGE_MMAP_THRESHOLD with
    | some v => if 0 ≤ v then { c0 with mmap_threshold := v.toNat } else c0
    | none => c0
  let c2 := match env.MEMFORGE_PAGE_SIZE with
    | some v => if 0 ≤ v then { c1 with page_size := v.toNat } else c1
    | none => c1
  let c3 := match env.MEMFORGE_STRATEGY_HYBRID with
    | some v => if 0 ≤ v then { c2 with strategy := v } else c2
    | none => c2
  match env.MEMFORGE_DEBUG with
  | some v => { c3 with debug_level := v }
  | none => c3

/-- `setup_config`: computes the environment-tuned custom config and
returns it whenever any of its four compared fields differs from the
default config; only when all four coincide does it return
`default_memforge_config`. -/
def setup_config (env : EnvVars) : Config :=
  let custom := custom_environment_tuning env
  if custom.mmap_threshold ≠ default_memforge_config.mmap_threshold ∨
     custom.page_size ≠ default_memforge_config.page_size ∨
     custom.strategy ≠ default_memforge_config.strategy ∨
     custom.debug_level ≠ default_memforge_config.debug_level then
    custom
  else
    default_memforge_config

end ConfigSetup

-- ============================================================================
-- Concrete oracles and states used by witnesses and counterexamples
-- ============================================================================

/-- Oracle on which every external request succeeds. -/
def goodSys : SysOracle :=
  { sysconf_page_size := 4096, arena_array_ok := true, arena_ok := fun _ => true }

/-- Oracle on which the very first `arena_create` (the main arena) fails. -/
def mainArenaFailSys : SysOracle :=
  { sysconf_page_size := 4096, arena_array_ok := true, arena_ok := fun _ => false }

/-- Oracle on which arena creation fails from call index 2 onwards: the
main arena and arena 1 are created, arena 2 is not. -/
def thirdArenaFailSys : SysOracle :=
  { sysconf_page_size := 4096, arena_array_ok := true,
    arena_ok := fun k => decide (k < 2) }

/-- A Ready allocator state: `initialState` after a successful
`memforge_init` on the all-good oracle. -/
def readyState : MemforgeState := (memforge_init goodSys none initialState).2

/-- Well-formedness of the allocation model: the fresh-pointer counter is
nonzero and strictly above every live base and every free-block base, free
blocks are nonzero, and no free block coincides with a live allocation. -/
def state_wf (s : MemforgeState) : Prop :=
  0 < s.next_ptr ∧
  (∀ r ∈ s.live, r.base < s.next_ptr) ∧
  (∀ b ∈ s.free_blocks, 0 < b.1 ∧ b.1 < s.next_ptr ∧ ∀ r ∈ s.live, r.base ≠ b.1)

instance (s : MemforgeState) : Decidable (state_wf s) := by
  unfold state_wf; infer_instance

/-- A user configuration with four arenas, thread safety on and a
deliberately zero page size (to observe that zero fields are taken as
given). -/
def cfgFour : memforge_config_t :=
  { page_size := 0, mmap_threshold := 65536,
    strategy := .MEMFORGE_STRATEGY_FIRST_FIT,
    thread_safe := true, debug_enabled := false, arena_count := 4 }

-- ============================================================================
-- Helper lemmas
-- ============================================================================

/-- `memforge_init` never touches the statistics, the live-allocation set
or the free lists, on any of its paths. -/
theorem memforge_init_preserves_alloc_model (sys : SysOracle)
    (config : Option memforge_config_t) (s : MemforgeState) :
    (memforge_init sys config s).2.memforge_stats = s.memforge_stats ∧
    (memforge_init sys config s).2.live = s.live ∧
    (memforge_init sys config s).2.free_blocks = s.free_blocks := by
  unfold memforge_init memforge_init_default_config memforge_init_arenas
  cases config <;>
    by_cases hinit : s.memforge_initialized <;>
    by_cases harr : sys.arena_array_ok = false <;>
    by_cases h0 : sys.arena_ok 0 = false <;>
    simp_all <;> split <;> simp

/-- A `memforge_init` call that returns 0 leaves the allocator with
`memforge_initialized = true`. -/
theorem memforge_init_zero_means_ready (sys : SysOracle)
    (config : Option memforge_config_t) (s : MemforgeState)
    (h : (memforge_init sys config s).1 = 0) :
    (memforge_init sys config s).2.memforge_initialized = true := by
  unfold memforge_init memforge_init_default_config memforge_init_arenas at *
  cases config <;>
    by_cases hinit : s.memforge_initialized <;>
    by_cases harr : sys.arena_array_ok = false <;>
    by_cases h0 : sys.arena_ok 0 = false <;>
    simp_all <;> split <;> simp_all

/-- Break behaviour of the arena-creation loop: when every index before
`i` succeeds and `i` (inside the index range) fails, the loop stops at `i`,
reports `i` as the new arena count, leaves slots below the range start
untouched, and has filled every visited slot. -/
theorem init_arenas_loop_break (ok : Nat → Bool) (count i : Nat)
    (hi : ok i = false) :
    ∀ (n s : Nat) (slots : List (Option Nat)), s ≤ i → i < s + n →
      (∀ j, s ≤ j → j < i → ok j = true) →
      (init_arenas_loop ok count slots (List.range' s n)).2 = i ∧
      ∀ j, j < slots.length →
        (j < s → (init_arenas_loop ok count slots (List.range' s n)).1[j]? = slots[j]?) ∧
        (s ≤ j → j < i → (init_arenas_loop ok count slots (List.range' s n)).1[j]? = some (some j)) := by
  intro n
  induction n with
  | zero => intro s slots hsi hin hok; omega
  | succ m ih =>
    intro s slots hsi hin hok
    rw [List.range'_succ]
    by_cases hs : s = i
    · subst hs
      simp only [init_arenas_loop, hi]
      refine ⟨rfl, fun j hj => ⟨fun _ => rfl, fun h1 h2 => absurd (lt_of_le_of_lt h1 h2) (lt_irrefl s)⟩⟩
    · have hslt : s < i := lt_of_le_of_ne hsi hs
      have hoks : ok s = true := hok s le_rfl hslt
      simp only [init_arenas_loop, hoks, if_true]
      have ih2 := ih (s + 1) (slots.set s (some s)) hslt (by omega)
        (fun j hj1 hj2 => hok j (by omega) hj2)
      refine ⟨ih2.1, fun j hj => ?_⟩
      have hj2 : j < (slots.set s (some s)).length := by
        rwa [List.length_set]
      refine ⟨fun hjs => ?_, fun hj1 hj2' => ?_⟩
      · rw [(ih2.2 j hj2).1 (by omega), List.getElem?_set_ne (by omega)]
      · by_cases hjeq : j = s
        · subst hjeq
          rw [(ih2.2 j hj2).1 (by omega), List.getElem?_set_eq_of_lt _ hj]
        · exact (ih2.2 j hj2).2 (by omega) hj2'

/-- When every index in the list succeeds, the arena-creation loop never
breaks and reports the original count. -/
theorem init_arenas_loop_all_ok (ok : Nat → Bool) (count : Nat) :
    ∀ (idx : List Nat) (slots : List (Option Nat)),
      (∀ j ∈ idx, ok j = true) →
      (init_arenas_loop ok count slots idx).2 = count := by
  intro idx
  induction idx with
  | nil => intro slots _; rfl
  | cons i rest ih =>
    intro slots hok
    simp only [init_arenas_loop, hok i (List.mem_cons_self i rest), if_true]
    exact ih _ (fun j hj => hok j (List.mem_cons_of_mem i hj))

/-- The arena count reported by the loop is either the original count or
one of the visited indices (the break point). -/
theorem init_arenas_loop_result_cases (ok : Nat → Bool) (count : Nat) :
    ∀ (idx : List Nat) (slots : List (Option Nat)),
      (init_arenas_loop ok count slots idx).2 = count ∨
      (init_arenas_loop ok count slots idx).2 ∈ idx := by
  intro idx
  induction idx with
  | nil => intro slots; exact Or.inl rfl
  | cons i rest ih =>
    intro slots
    simp only [init_arenas_loop]
    by_cases hok : ok i
    · simp only [hok, if_true]
      rcases ih (slots.set i (some i)) with h | h
      · exact Or.inl h
      · exact Or.inr (List.mem_cons_of_mem i h)
    · simp only [hok, if_false]
      exact Or.inr (List.mem_cons_self i rest)

-- ============================================================================
-- Claim theorems
-- ============================================================================

/-- Claim C5: a `memforge_init` call made while the allocator is already
Ready (`memforge_initialized = true`) returns 0 and leaves the entire
allocator state — configuration, statistics, arena array, main arena,
size classes — unchanged; initialization is idempotent once Ready. -/
theorem memforge_init_idempotent_once_ready (sys : SysOracle)
    (config : Option memforge_config_t) (s : MemforgeState)
    (h : s.memforge_initialized = true) :
    memforge_init sys config s = (0, s) := by
  simp [memforge_init, h]

/-- Witness for C5 at the Ready state reached by a successful default
initialization. -/
theorem memforge_init_idempotent_once_ready_witness :
    readyState.memforge_initialized = true ∧
    memforge_init goodSys none readyState = (0, readyState) :=
  ⟨by decide, memforge_init_idempotent_once_ready goodSys none readyState (by decide)⟩

/-- Claim C8: the size-class table boundaries are strictly increasing and
each is a multiple of the 8-byte alignment unit, both for the statically
initialized table and for the table after the alignment-rounding loop of
`memforge_init` (whose effect on the table is exactly
`List.map MEMFORGE_ALIGN`, as the successful default initialization
exhibits). -/
theorem size_class_table_invariant :
    List.Pairwise (· < ·) memforge_size_classes ∧
    (∀ x ∈ memforge_size_classes, x % MEMFORGE_ALIGNMENT = 0) ∧
    List.Pairwise (· < ·) (memforge_size_classes.map MEMFORGE_ALIGN) ∧
    (∀ x ∈ memforge_size_classes.map MEMFORGE_ALIGN, x % MEMFORGE_ALIGNMENT = 0) ∧
    (memforge_init goodSys none initialState).2.memforge_size_classes =
      memforge_size_classes.map MEMFORGE_ALIGN := by
  decide

/-- Claim C9 (code bug): in an environment where none of the recognized
`MEMFORGE_*` variables is set, `setup_config` does not return the default
configuration: every zero field of the zero-initialized custom struct
differs from its default value, so the comparison in `setup_config`
selects the custom struct, and the zero configuration is returned. -/
theorem setup_config_empty_env_returns_zero_config :
    ConfigSetup.setup_config ConfigSetup.emptyEnv =
      { mmap_threshold := 0, page_size := 0, strategy := 0, debug_level := 0,
        thread_safe := false } ∧
    ConfigSetup.setup_config ConfigSetup.emptyEnv ≠
      ConfigSetup.default_memforge_config := by
  decide

/-- Claim C3, counterexample: starting from the pristine global state, an
initialization that fails (the main arena cannot be created) returns -1
but does commit partial state: the global configuration has been
overwritten with the detected defaults and the arena-array pointer is left
holding the (freed) array instead of its previous NULL value. -/
theorem memforge_init_failure_commits_partial_state :
    (memforge_init mainArenaFailSys none initialState).1 = -1 ∧
    (memforge_init mainArenaFailSys none initialState).2.memforge_config ≠
      initialState.memforge_config ∧
    (memforge_init mainArenaFailSys none initialState).2.memforge_arenas ≠
      initialState.memforge_arenas := by
  decide

/-- Claim C3 (amended): a failing `memforge_init` does leave the allocator
Uninitialized (`memforge_initialized` stays false) and does not touch the
statistics, the live-allocation state or the free lists — but the global
configuration may have been overwritten with the defaults (and the
caller's struct, if given) and the arena-array pointer may be left stale
rather than restored. -/
theorem memforge_init_failure_leaves_uninitialized (sys : SysOracle)
    (config : Option memforge_config_t) (s : MemforgeState)
    (h : (memforge_init sys config s).1 = -1) :
    (memforge_init sys config s).2.memforge_initialized = false ∧
    (memforge_init sys config s).2.memforge_stats = s.memforge_stats ∧
    (memforge_init sys config s).2.live = s.live ∧
    (memforge_init sys config s).2.free_blocks = s.free_blocks := by
  have hpres := memforge_init_preserves_alloc_model sys config s
  refine ⟨?_, hpres.1, hpres.2.1, hpres.2.2⟩
  unfold memforge_init memforge_init_default_config memforge_init_arenas at *
  cases config <;>
    by_cases hinit : s.memforge_initialized <;>
    by_cases harr : sys.arena_array_ok = false <;>
    by_cases h0 : sys.arena_ok 0 = false <;>
    simp_all <;> split <;> simp_all

/-- Witness for the amended C3 at a concrete failing initialization. -/
theorem memforge_init_failure_leaves_uninitialized_witness :
    (memforge_init mainArenaFailSys none initialState).1 = -1 ∧
    (memforge_init mainArenaFailSys none initialState).2.memforge_initialized = false :=
  ⟨by decide,
   (memforge_init_failure_leaves_uninitialized mainArenaFailSys none initialState (by decide)).1⟩

/-- Claim C2: a `memforge_malloc` call made while the allocator is
Uninitialized first runs `memforge_init(NULL)`.  When that initialization
fails the call returns NULL with `errno = ENOMEM` without allocating
(the live set and statistics are those left by the failed initialization,
which itself touches neither); when it succeeds the allocator is Ready
(`memforge_initialized = true`) before the request is served by the
allocation core on the initialized state. -/
theorem memforge_malloc_lazy_init (sys : SysOracle) (size : Nat)
    (s : MemforgeState) (h : s.memforge_initialized = false) :
    ((memforge_init sys none s).1 ≠ 0 →
      memforge_malloc sys size s =
        { ptr := none, errno_val := some ENOMEM,
          state := (memforge_init sys none s).2 } ∧
      (memforge_init sys none s).2.live = s.live ∧
      (memforge_init sys none s).2.memforge_stats = s.memforge_stats) ∧
    ((memforge_init sys none s).1 = 0 →
      (memforge_init sys none s).2.memforge_initialized = true ∧
      memforge_malloc sys size s =
        memforge_malloc_core (if size = 0 then 1 else size)
          (memforge_init sys none s).2) := by
  have hpres := memforge_init_preserves_alloc_model sys none s
  constructor
  · intro hne
    refine ⟨?_, hpres.2.1, hpres.1⟩
    simp [memforge_malloc, h, hne]
  · intro heq
    refine ⟨memforge_init_zero_means_ready sys none s heq, ?_⟩
    simp [memforge_malloc, h, heq]

/-- Witness for C2 at the pristine state, once with an oracle on which
initialization fails and once with one on which it succeeds. -/
theorem memforge_malloc_lazy_init_witness :
    (initialState.memforge_initialized = false ∧
      ((memforge_init mainArenaFailSys none initialState).1 ≠ 0 →
        memforge_malloc mainArenaFailSys 5 initialState =
          { ptr := none, errno_val := some ENOMEM,
            state := (memforge_init mainArenaFailSys none initialState).2 } ∧
        (memforge_init mainArenaFailSys none initialState).2.live = initialState.live ∧
        (memforge_init mainArenaFailSys none initialState).2.memforge_stats =
          initialState.memforge_stats)) ∧
    ((memforge_init goodSys none initialState).1 = 0 →
      (memforge_init goodSys none initialState).2.memforge_initialized = true ∧
      memforge_malloc goodSys 5 initialState =
        memforge_malloc_core 5 (memforge_init goodSys none initialState).2) :=
  ⟨⟨by decide, (memforge_malloc_lazy_init mainArenaFailSys 5 initialState (by decide)).1⟩,
   (memforge_malloc_lazy_init goodSys 5 initialState (by decide)).2⟩


/-- Shape of a successful `memforge_init_arenas` in thread-safe mode: the
main arena goes to slot 0 and the remaining slots and the resulting arena
count are produced by the creation loop. -/
theorem memforge_init_arenas_success_shape (sys : SysOracle) (s : MemforgeState)
    (harr : sys.arena_array_ok = true) (hmain : sys.arena_ok 0 = true)
    (hts : s.memforge_config.thread_safe = true) :
    memforge_init_arenas sys s =
      (0, { s with
        memforge_main_arena := some 0
        memforge_arenas := some (init_arenas_loop sys.arena_ok
          s.memforge_config.arena_count
          ((List.replicate s.memforge_config.arena_count none).set 0 (some 0))
          (List.range' 1 (s.memforge_config.arena_count - 1))).1
        memforge_config := { s.memforge_config with
          arena_count := (init_arenas_loop sys.arena_ok
            s.memforge_config.arena_count
            ((List.replicate s.memforge_config.arena_count none).set 0 (some 0))
            (List.range' 1 (s.memforge_config.arena_count - 1))).2 } }) := by
  simp [memforge_init_arenas, harr, hmain, hts]

/-- Shape of `memforge_init` with a caller configuration while not yet
initialized: the caller's struct wholly replaces the freshly written
defaults before the arenas are initialized. -/
theorem memforge_init_some_config_eq (sys : SysOracle) (c : memforge_config_t)
    (s : MemforgeState) (hs : s.memforge_initialized = false) :
    memforge_init sys (some c) s =
      (if (memforge_init_arenas sys { s with memforge_config := c }).1 ≠ 0 then
        (-1, (memforge_init_arenas sys { s with memforge_config := c }).2)
      else
        (0, { (memforge_init_arenas sys { s with memforge_config := c }).2 with
          memforge_size_classes :=
            ((memforge_init_arenas sys { s with memforge_config := c }).2.memforge_size_classes).map
              MEMFORGE_ALIGN
          memforge_initialized := true })) := by
  simp [memforge_init, memforge_init_default_config, hs]

/-- Claim C4: when the main arena is created but the `arena_create` call
for some additional arena index `i ≥ 1` fails (all earlier ones having
succeeded), `memforge_init` still returns success, the configured arena
count is reduced to `i`, and every arena slot below `i` holds a
successfully created arena. -/
theorem init_partial_arena_failure_degrades (sys : SysOracle)
    (c : memforge_config_t) (s : MemforgeState) (i : Nat)
    (hs : s.memforge_initialized = false)
    (harr : sys.arena_array_ok = true)
    (hmain : sys.arena_ok 0 = true)
    (hts : c.thread_safe = true)
    (h1 : 1 ≤ i) (hlt : i < c.arena_count)
    (hfail : sys.arena_ok i = false)
    (hok : ∀ j, 1 ≤ j → j < i → sys.arena_ok j = true) :
    (memforge_init sys (some c) s).1 = 0 ∧
    (memforge_init sys (some c) s).2.memforge_config.arena_count = i ∧
    ∃ slots, (memforge_init sys (some c) s).2.memforge_arenas = some slots ∧
      ∀ j, j < i → slots[j]? = some (some j) := by
  have hloop := init_arenas_loop_break sys.arena_ok c.arena_count i hfail
    (c.arena_count - 1) 1
    ((List.replicate c.arena_count (none : Option Nat)).set 0 (some 0))
    h1 (by omega) hok
  rw [memforge_init_some_config_eq sys c s hs,
    memforge_init_arenas_success_shape sys _ harr hmain hts]
  simp only [ne_eq, not_true_eq_false, if_neg, ite_false, not_false_eq_true]
  refine ⟨trivial, hloop.1, ?_⟩
  refine ⟨_, rfl, fun j hj => ?_⟩
  have hjlen : j < ((List.replicate c.arena_count (none : Option Nat)).set 0 (some 0)).length := by
    rw [List.length_set, List.length_replicate]; omega
  rcases Nat.lt_or_ge j 1 with hj0 | hj1
  · have hj' : j = 0 := by omega
    subst hj'
    rw [(hloop.2 0 hjlen).1 (by omega),
      List.getElem?_set_eq_of_lt _ (by rw [List.length_replicate]; omega)]
  · exact (hloop.2 j hjlen).2 hj1 hj

/-- Witness for C4: four arenas requested, creation fails from call index
2 on, so the count degrades to 2 with slots 0 and 1 filled. -/
theorem init_partial_arena_failure_degrades_witness :
    thirdArenaFailSys.arena_ok 0 = true ∧ thirdArenaFailSys.arena_ok 2 = false ∧
    (memforge_init thirdArenaFailSys (some cfgFour) initialState).1 = 0 ∧
    (memforge_init thirdArenaFailSys (some cfgFour) initialState).2.memforge_config.arena_count = 2 :=
  ⟨by decide, by decide,
   (init_partial_arena_failure_degrades thirdArenaFailSys cfgFour initialState 2
      (by decide) (by decide) (by decide) (by decide) (by decide) (by decide) (by decide)
      (fun j hj1 hj2 => by
        have hj : j = 1 := by omega
        subst hj; decide)).1,
   (init_partial_arena_failure_degrades thirdArenaFailSys cfgFour initialState 2
      (by decide) (by decide) (by decide) (by decide) (by decide) (by decide) (by decide)
      (fun j hj1 hj2 => by
        have hj : j = 1 := by omega
        subst hj; decide)).2.1⟩

/-- Shape of `memforge_init_arenas` when the arena-array allocation
fails: NULL is committed to `memforge_arenas` and -1 is returned. -/
theorem memforge_init_arenas_array_fail (sys : SysOracle) (s : MemforgeState)
    (harr : sys.arena_array_ok = false) :
    memforge_init_arenas sys s = (-1, { s with memforge_arenas := none }) := by
  simp [memforge_init_arenas, harr]

/-- Shape of `memforge_init_arenas` when the main arena cannot be
created: the freed array stays in `memforge_arenas`, the NULL result in
`memforge_main_arena`, and -1 is returned. -/
theorem memforge_init_arenas_main_fail (sys : SysOracle) (s : MemforgeState)
    (harr : sys.arena_array_ok = true) (hmain : sys.arena_ok 0 = false) :
    memforge_init_arenas sys s =
      (-1, { s with
        memforge_arenas := some (List.replicate s.memforge_config.arena_count none)
        memforge_main_arena := none }) := by
  simp [memforge_init_arenas, harr, hmain]

/-- Shape of a successful `memforge_init_arenas` without thread safety:
only the main arena is created. -/
theorem memforge_init_arenas_single_shape (sys : SysOracle) (s : MemforgeState)
    (harr : sys.arena_array_ok = true) (hmain : sys.arena_ok 0 = true)
    (hts : s.memforge_config.thread_safe = false) :
    memforge_init_arenas sys s =
      (0, { s with
        memforge_arenas := some
          ((List.replicate s.memforge_config.arena_count none).set 0 (some 0))
        memforge_main_arena := some 0 }) := by
  simp [memforge_init_arenas, harr, hmain, hts]

/-- Claim C10, counterexample: a successful initialization with a non-null
caller configuration need not leave every global configuration field equal
to the caller's — when additional-arena creation partially fails,
`arena_count` is reduced below the caller's value even though
`memforge_init` reports success. -/
theorem init_user_config_arena_count_clobbered :
    (memforge_init thirdArenaFailSys (some cfgFour) initialState).1 = 0 ∧
    (memforge_init thirdArenaFailSys (some cfgFour) initialState).2.memforge_config.arena_count ≠
      cfgFour.arena_count := by
  decide

/-- Claim C10 (amended): after a successful `memforge_init` with a
non-null caller configuration from the Uninitialized state, every global
configuration field except `arena_count` equals the caller's field exactly
(zero-valued fields such as `page_size` are used as given, not filled in
from defaults); `arena_count` never exceeds the caller's value and equals
it whenever every requested arena creation succeeds. -/
theorem init_user_config_overrides_defaults (sys : SysOracle)
    (c : memforge_config_t) (s : MemforgeState)
    (hs : s.memforge_initialized = false)
    (hsucc : (memforge_init sys (some c) s).1 = 0) :
    (memforge_init sys (some c) s).2.memforge_config.page_size = c.page_size ∧
    (memforge_init sys (some c) s).2.memforge_config.mmap_threshold = c.mmap_threshold ∧
    (memforge_init sys (some c) s).2.memforge_config.strategy = c.strategy ∧
    (memforge_init sys (some c) s).2.memforge_config.thread_safe = c.thread_safe ∧
    (memforge_init sys (some c) s).2.memforge_config.debug_enabled = c.debug_enabled ∧
    (memforge_init sys (some c) s).2.memforge_config.arena_count ≤ c.arena_count ∧
    ((∀ j, j < c.arena_count → sys.arena_ok j = true) →
      (memforge_init sys (some c) s).2.memforge_config.arena_count = c.arena_count) := by
  rw [memforge_init_some_config_eq sys c s hs] at hsucc ⊢
  by_cases harr : sys.arena_array_ok = true
  · by_cases hmain : sys.arena_ok 0 = true
    · by_cases hts : c.thread_safe = true
      · rw [memforge_init_arenas_success_shape sys _ harr hmain hts] at hsucc ⊢
        simp only [ne_eq, not_true_eq_false, if_neg, ite_false, not_false_eq_true] at hsucc ⊢
        refine ⟨trivial, trivial, trivial, trivial, trivial, ?_, ?_⟩
        · rcases init_arenas_loop_result_cases sys.arena_ok c.arena_count
            (List.range' 1 (c.arena_count - 1))
            ((List.replicate c.arena_count (none : Option Nat)).set 0 (some 0)) with h | h
          · simp only [h]; exact le_refl _
          · have := List.mem_range'_1.mp h
            omega
        · intro hall
          exact init_arenas_loop_all_ok sys.arena_ok c.arena_count
            (List.range' 1 (c.arena_count - 1))
            ((List.replicate c.arena_count (none : Option Nat)).set 0 (some 0))
            (fun j hj => by
              have := List.mem_range'_1.mp hj
              exact hall j (by omega))
      · have hts' : c.thread_safe = false := by
          cases h : c.thread_safe
          · rfl
          · exact absurd h hts
        rw [memforge_init_arenas_single_shape sys _ harr hmain hts'] at hsucc ⊢
        simp only [ne_eq, not_true_eq_false, if_neg, ite_false, not_false_eq_true] at hsucc ⊢
        refine ⟨trivial, trivial, trivial, trivial, trivial, ?_, ?_⟩
        · exact le_refl _
        · exact fun _ => trivial
    · have hmain' : sys.arena_ok 0 = false := by
        cases h : sys.arena_ok 0
        · rfl
        · exact absurd h hmain
      rw [memforge_init_arenas_main_fail sys _ harr hmain'] at hsucc
      simp at hsucc
  · have harr' : sys.arena_array_ok = false := by
      cases h : sys.arena_array_ok
      · rfl
      · exact absurd h harr
    rw [memforge_init_arenas_array_fail sys _ harr'] at hsucc
    simp at hsucc

/-- Witness for the amended C10: the zero `page_size` of the caller's
struct survives a successful initialization as given. -/
theorem init_user_config_overrides_defaults_witness :
    initialState.memforge_initialized = false ∧
    (memforge_init goodSys (some cfgFour) initialState).1 = 0 ∧
    (memforge_init goodSys (some cfgFour) initialState).2.memforge_config.page_size =
      cfgFour.page_size :=
  ⟨by decide, by decide,
   (init_user_config_overrides_defaults goodSys cfgFour initialState
      (by decide) (by decide)).1⟩

/-- Claim C1: on an allocation request that misses the free lists, an
aligned request size strictly below the configured mmap threshold is
served from heap-segment space and leaves the mmap counter unchanged,
while an aligned request size at or above the threshold is served as a
standalone direct mapping — bypassing the free lists, which are left
untouched — and increments the mmap counter by exactly 1. -/
theorem mmap_threshold_decision_on_miss (size : Nat) (s : MemforgeState)
    (hmiss : s.free_blocks.find? (fun b => decide (MEMFORGE_ALIGN size ≤ b.2)) = none) :
    (MEMFORGE_ALIGN size < s.memforge_config.mmap_threshold →
      (memforge_malloc_core size s).ptr = some s.next_ptr ∧
      (memforge_malloc_core size s).state.live =
        ⟨s.next_ptr, List.replicate (MEMFORGE_ALIGN size) 170, .heap⟩ :: s.live ∧
      (memforge_malloc_core size s).state.memforge_stats.mmap_count =
        s.memforge_stats.mmap_count) ∧
    (s.memforge_config.mmap_threshold ≤ MEMFORGE_ALIGN size →
      (memforge_malloc_core size s).ptr = some s.next_ptr ∧
      (memforge_malloc_core size s).state.live =
        ⟨s.next_ptr, List.replicate (MEMFORGE_ALIGN size) 170, .direct_mapping⟩ :: s.live ∧
      (memforge_malloc_core size s).state.memforge_stats.mmap_count =
        s.memforge_stats.mmap_count + 1 ∧
      (memforge_malloc_core size s).state.free_blocks = s.free_blocks) := by
  constructor
  · intro hlt
    simp [memforge_malloc_core, hmiss, serve_miss, hlt, bump_alloc_stats]
  · intro hge
    simp [memforge_malloc_core, hmiss, serve_miss, Nat.not_lt.mpr hge, bump_alloc_stats]

/-- Witness for C1 at the Ready default configuration: a request whose
aligned size reaches the 128KB threshold is direct-mapped and bumps the
mmap counter. -/
theorem mmap_threshold_decision_on_miss_witness :
    readyState.free_blocks.find?
      (fun b => decide (MEMFORGE_ALIGN 131072 ≤ b.2)) = none ∧
    (memforge_malloc_core 131072 readyState).state.memforge_stats.mmap_count =
      readyState.memforge_stats.mmap_count + 1 :=
  ⟨by decide,
   ((mmap_threshold_decision_on_miss 131072 readyState (by decide)).2
      (by decide)).2.2.1⟩

/-- Claim C6: in a Ready, well-formed state, `memforge_malloc 0` returns a
non-null pointer distinct from the base of every other live allocation,
and `memforge_free` on that pointer succeeds. -/
theorem malloc_zero_returns_fresh_freeable (sys : SysOracle) (s : MemforgeState)
    (hinit : s.memforge_initialized = true) (hwf : state_wf s) :
    ∃ p, (memforge_malloc sys 0 s).ptr = some p ∧ p ≠ 0 ∧
      (∀ r ∈ s.live, r.base ≠ p) ∧
      (memforge_free p (memforge_malloc sys 0 s).state).1 = FreeStatus.ok := by
  obtain ⟨hnp, hlive, hfree⟩ := hwf
  have hmal : memforge_malloc sys 0 s = memforge_malloc_core 1 s := by
    simp [memforge_malloc, hinit]
  rw [hmal]
  cases hfind : s.free_blocks.find? (fun b => decide (MEMFORGE_ALIGN 1 ≤ b.2)) with
  | some b =>
    have hb : b ∈ s.free_blocks := List.mem_of_find?_eq_some hfind
    obtain ⟨hb0, hblt, hbdist⟩ := hfree b hb
    have hcore : memforge_malloc_core 1 s =
        { ptr := some b.1, errno_val := none,
          state := { s with
            free_blocks := s.free_blocks.erase b
            live := ⟨b.1, List.replicate b.2 170, .heap⟩ :: s.live
            memforge_stats := bump_alloc_stats b.2 s.memforge_stats } } := by
      simp [memforge_malloc_core, hfind]
    rw [hcore]
    refine ⟨b.1, rfl, by omega, fun r hr => hbdist r hr, ?_⟩
    simp only [memforge_free]
    rw [if_neg (by omega), List.find?_cons_of_pos _ (by simp)]
  | none =>
    have hcore : memforge_malloc_core 1 s = serve_miss 1 s := by
      simp [memforge_malloc_core, hfind]
    rw [hcore]
    by_cases hth : MEMFORGE_ALIGN 1 < s.memforge_config.mmap_threshold
    · have hserve : serve_miss 1 s =
          { ptr := some s.next_ptr, errno_val := none,
            state := { s with
              next_ptr := s.next_ptr + MEMFORGE_ALIGN 1
              live := ⟨s.next_ptr, List.replicate (MEMFORGE_ALIGN 1) 170, .heap⟩ :: s.live
              memforge_stats := { bump_alloc_stats (MEMFORGE_ALIGN 1) s.memforge_stats with
                heap_expansions := s.memforge_stats.heap_expansions + 1 } } } := by
        simp [serve_miss, hth]
      rw [hserve]
      refine ⟨s.next_ptr, rfl, by omega,
        fun r hr => Nat.ne_of_lt (hlive r hr), ?_⟩
      simp only [memforge_free]
      rw [if_neg (by omega), List.find?_cons_of_pos _ (by simp)]
    · have hserve : serve_miss 1 s =
          { ptr := some s.next_ptr, errno_val := none,
            state := { s with
              next_ptr := s.next_ptr + MEMFORGE_ALIGN 1
              live := ⟨s.next_ptr, List.replicate (MEMFORGE_ALIGN 1) 170, .direct_mapping⟩ :: s.live
              memforge_stats := { bump_alloc_stats (MEMFORGE_ALIGN 1) s.memforge_stats with
                mmap_count := s.memforge_stats.mmap_count + 1 } } } := by
        simp [serve_miss, hth]
      rw [hserve]
      refine ⟨s.next_ptr, rfl, by omega,
        fun r hr => Nat.ne_of_lt (hlive r hr), ?_⟩
      simp only [memforge_free]
      rw [if_neg (by omega), List.find?_cons_of_pos _ (by simp)]

/-- Witness for C6 at the Ready default state. -/
theorem malloc_zero_returns_fresh_freeable_witness :
    readyState.memforge_initialized = true ∧ state_wf readyState ∧
    ∃ p, (memforge_malloc goodSys 0 readyState).ptr = some p ∧ p ≠ 0 ∧
      (∀ r ∈ readyState.live, r.base ≠ p) ∧
      (memforge_free p (memforge_malloc goodSys 0 readyState).state).1 = FreeStatus.ok :=
  ⟨by decide, by decide,
   malloc_zero_returns_fresh_freeable goodSys readyState (by decide) (by decide)⟩

/-- Every successful path of the allocation core pushes the record of the
returned pointer onto the head of the live set. -/
theorem memforge_malloc_core_head (m : Nat) (s : MemforgeState) :
    ∃ rec, (memforge_malloc_core m s).ptr = some rec.base ∧
      (memforge_malloc_core m s).state.live = rec :: s.live := by
  cases hfind : s.free_blocks.find? (fun b => decide (MEMFORGE_ALIGN m ≤ b.2)) with
  | some b =>
    refine ⟨⟨b.1, List.replicate b.2 170, .heap⟩, ?_, ?_⟩ <;>
      simp [memforge_malloc_core, hfind]
  | none =>
    by_cases hth : MEMFORGE_ALIGN m < s.memforge_config.mmap_threshold
    · refine ⟨⟨s.next_ptr, List.replicate (MEMFORGE_ALIGN m) 170, .heap⟩, ?_, ?_⟩ <;>
        simp [memforge_malloc_core, hfind, serve_miss, hth]
    · refine ⟨⟨s.next_ptr, List.replicate (MEMFORGE_ALIGN m) 170, .direct_mapping⟩, ?_, ?_⟩ <;>
        simp [memforge_malloc_core, hfind, serve_miss, hth]

/-- A `memforge_malloc` call that returns a pointer has that pointer's
record at the head of the resulting live set. -/
theorem memforge_malloc_some_head (sys : SysOracle) (m : Nat) (s : MemforgeState)
    (p : Nat) (h : (memforge_malloc sys m s).ptr = some p) :
    ∃ rec rest, (memforge_malloc sys m s).state.live = rec :: rest ∧ rec.base = p := by
  by_cases hinit : s.memforge_initialized
  · have hmal : memforge_malloc sys m s =
        memforge_malloc_core (if m = 0 then 1 else m) s := by
      simp [memforge_malloc, hinit]
    rw [hmal] at h ⊢
    obtain ⟨rec, h1, h2⟩ := memforge_malloc_core_head (if m = 0 then 1 else m) s
    exact ⟨rec, s.live, h2, Option.some.inj (h1.symm.trans h)⟩
  · have hflag : s.memforge_initialized = false := by simpa using hinit
    by_cases hz : (memforge_init sys none s).1 = 0
    · have hmal : memforge_malloc sys m s =
          memforge_malloc_core (if m = 0 then 1 else m) (memforge_init sys none s).2 := by
        simp [memforge_malloc, hflag, hz]
      rw [hmal] at h ⊢
      obtain ⟨rec, h1, h2⟩ :=
        memforge_malloc_core_head (if m = 0 then 1 else m) (memforge_init sys none s).2
      exact ⟨rec, (memforge_init sys none s).2.live, h2, Option.some.inj (h1.symm.trans h)⟩
    · have hmal : memforge_malloc sys m s =
          { ptr := none, errno_val := some ENOMEM, state := (memforge_init sys none s).2 } := by
        simp [memforge_malloc, hflag, hz]
      rw [hmal] at h
      simp at h

/-- Claim C7: `memforge_calloc` is overflow-checked `memforge_malloc` of
the product with zero-fill: it fails whenever `count * elementSize`
overflows `size_t`, otherwise it returns exactly what
`memforge_malloc (count * elementSize)` returns, and on success the
record of the returned pointer has its first `count * elementSize` bytes
zero. -/
theorem calloc_overflow_checked_zero_fill (sys : SysOracle) (n size : Nat)
    (s : MemforgeState) :
    (SIZE_MAX < n * size →
      (memforge_calloc sys n size s).ptr = none ∧
      (memforge_calloc sys n size s).state = s) ∧
    (n * size ≤ SIZE_MAX →
      (memforge_calloc sys n size s).ptr = (memforge_malloc sys (n * size) s).ptr ∧
      ∀ p, (memforge_calloc sys n size s).ptr = some p →
        ∃ r, r ∈ (memforge_calloc sys n size s).state.live ∧ r.base = p ∧
          ∀ x ∈ r.bytes.take (n * size), x = 0) := by
  constructor
  · intro hover
    constructor <;> simp [memforge_calloc, hover]
  · intro hle
    have hno : ¬ SIZE_MAX < n * size := Nat.not_lt.mpr hle
    cases hptr : (memforge_malloc sys (n * size) s).ptr with
    | none =>
      have hcall : memforge_calloc sys n size s = memforge_malloc sys (n * size) s := by
        simp [memforge_calloc, hno, hptr]
      rw [hcall, hptr]
      exact ⟨rfl, fun p hp => absurd hp (by simp)⟩
    | some p0 =>
      have hcall : memforge_calloc sys n size s =
          { memforge_malloc sys (n * size) s with
            state := zero_fill p0 (n * size) (memforge_malloc sys (n * size) s).state } := by
        simp [memforge_calloc, hno, hptr]
      obtain ⟨rec, rest, hlive, hbase⟩ := memforge_malloc_some_head sys (n * size) s p0 hptr
      rw [hcall]
      refine ⟨hptr.trans rfl, fun p hp => ?_⟩
      have hpp : p = p0 := by
        have : (memforge_malloc sys (n * size) s).ptr = some p := hp
        rw [hptr] at this
        exact (Option.some.inj this).symm
      subst hpp
      refine ⟨{ rec with bytes := List.replicate (n * size) 0 ++ rec.bytes.drop (n * size) }, ?_, hbase, ?_⟩
      · simp only [zero_fill, hlive, List.map_cons]
        rw [if_pos hbase]
        exact List.mem_cons_self _ _
      · intro x hx
        rw [List.take_left' (List.length_replicate (n * size) 0)] at hx
        exact List.eq_of_mem_replicate hx

/-- Witness for C7: an overflowing product fails while a 2-by-3 request
succeeds with its six requested bytes zeroed. -/
theorem calloc_overflow_checked_zero_fill_witness :
    (SIZE_MAX < SIZE_MAX * 2 →
      (memforge_calloc goodSys SIZE_MAX 2 readyState).ptr = none ∧
      (memforge_calloc goodSys SIZE_MAX 2 readyState).state = readyState) ∧
    (2 * 3 ≤ SIZE_MAX →
      ∃ r, r ∈ (memforge_calloc goodSys 2 3 readyState).state.live ∧ r.base = 4096 ∧
        ∀ x ∈ r.bytes.take (2 * 3), x = 0) :=
  ⟨fun h => (calloc_overflow_checked_zero_fill goodSys SIZE_MAX 2 readyState).1 h,
   fun h => ((calloc_overflow_checked_zero_fill goodSys 2 3 readyState).2 h).2 4096 (by decide)⟩
